import Mathlib

/-! Verification development for the Chinook analysis pipeline (src/main.py).

The script is a single-pass pandas batch pipeline.  We embed it shallowly:

* a DataFrame is a `List` of records, in row order;
* `float64` money amounts are modelled exactly as `ℚ` (the spec reasons about
  exact sums, not rounding), line-item quantities as `Nat`;
* a nullable column (a column that can hold `NaN`) is an `Option`;
* `Series.mean()` is modelled by `seriesMean`, whose `nan` constructor is the
  `NaN` that pandas returns for an empty series (no exception is raised);
* `merge(..., how="left")` is `leftJoin`: one output row per matching right
  row, a single `none`-filled row when nothing matches;
* `groupby(k)[v].sum()` is `groupBySum`: pandas groups with `sort=True` and
  `dropna=True`, so keys are deduplicated, rows whose key is `NaN` (`none`)
  are dropped, and the groups are listed in ascending key order;
* `sort_values(c, ascending=False)` is `sortDescBy`.  pandas' default sort
  kind (quicksort) is documented as not stable, so the program leaves the
  relative order of tied rows unspecified; `sortDescBy` realizes one concrete
  descending sort, and every theorem that reads its output states only
  conclusions that are invariant under reordering tied rows (bucket sums,
  memberships, lengths, non-increasing sortedness).  `head(n)` is `take n`;
* Python string comparison (used when sorting the "YYYY-MM" keys) is the
  lexicographic order on code points, embedded as the boolean `charListLt`;
* `InvoiceDate.dt.to_period("M").astype(str)` is `yearMonthKey`; pandas
  renders the period with a zero-padded 4-digit year (pandas timestamps only
  cover years 1677-2262, captured by `validDate`).

Nullable fields follow the Chinook schema: `Track.GenreId`, `Track.AlbumId`,
`Genre.Name`, `Artist.Name`, `Customer.SupportRepId` and the invoice's
`BillingCountry` are nullable; ids, totals, quantities and `Album.Title` are
not.  `Invoice.yearMonth` models the `YearMonth` column that
`analyze_revenue` adds to the invoice frame: it is `none` as loaded and is
populated by `analyze_revenue_frame` (the frame `analyze_revenue` returns and
`main` passes to the customer and salesperson analyses). -/

namespace Chinook

/-- Calendar date of an invoice (`InvoiceDate`). -/
structure Date where
  year : Nat
  month : Nat
  day : Nat
deriving DecidableEq

/-- A row of the `Invoice` table, plus the `YearMonth` column added by
`analyze_revenue` (`none` while the column does not exist yet). -/
structure Invoice where
  invoiceId : Nat
  customerId : Nat
  invoiceDate : Date
  billingCountry : Option String
  total : ℚ
  yearMonth : Option String
deriving DecidableEq

/-- A row of the `Customer` table (fields used by the script). -/
structure Customer where
  customerId : Nat
  firstName : String
  lastName : String
  country : Option String
  supportRepId : Option Nat
deriving DecidableEq

/-- A row of the `InvoiceLine` table (columns selected by the script). -/
structure InvoiceLine where
  invoiceLineId : Nat
  trackId : Nat
  quantity : Nat
deriving DecidableEq

/-- A row of the `Track` table (columns selected by the script). -/
structure Track where
  trackId : Nat
  genreId : Option Nat
  albumId : Option Nat
deriving DecidableEq

/-- A row of the `Genre` table (`Name` aliased to `GenreName`). -/
structure Genre where
  genreId : Nat
  name : Option String
deriving DecidableEq

/-- A row of the `Album` table (`Title` aliased to `AlbumTitle`). -/
structure Album where
  albumId : Nat
  title : String
  artistId : Nat
deriving DecidableEq

/-- A row of the `Artist` table (`Name` aliased to `ArtistName`). -/
structure Artist where
  artistId : Nat
  name : Option String
deriving DecidableEq

/-- A row of the `Employee` table (columns selected by the script). -/
structure Employee where
  employeeId : Nat
  firstName : String
  lastName : String
deriving DecidableEq

/-- Python string comparison `s < t`: lexicographic on code points. -/
def charListLt : List Char → List Char → Bool
  | _, [] => false
  | [], _ :: _ => true
  | a :: as, b :: bs => if a < b then true else if a = b then charListLt as bs else false

/-- Python `s < t` on strings. -/
def strLt (s t : String) : Bool := charListLt s.data t.data

/-- Python `s <= t` on strings. -/
def strLe (s t : String) : Bool := !strLt t s

/-- The decimal digit character for `n` (`0 ≤ n ≤ 9`). -/
def dc (n : Nat) : Char := Char.ofNat (48 + n)

/-- Zero-padded 4-digit decimal rendering (the `%Y` of a pandas period). -/
def pad4 (n : Nat) : List Char := [dc (n / 1000), dc (n / 100 % 10), dc (n / 10 % 10), dc (n % 10)]

/-- Zero-padded 2-digit decimal rendering (the `%m` of a pandas period). -/
def pad2 (n : Nat) : List Char := [dc (n / 10), dc (n % 10)]

/-- `to_period("M").astype(str)`: the "YYYY-MM" key of a date. -/
def yearMonthKey (d : Date) : String := String.mk (pad4 d.year ++ '-' :: pad2 d.month)

/-- A date pandas can actually represent: a real month, and a year whose
decimal rendering has at most 4 digits (pandas timestamps span 1677-2262). -/
@[reducible] def validDate (d : Date) : Prop :=
  1 ≤ d.month ∧ d.month ≤ 12 ∧ d.year ≤ 9999

/-- `invoices["YearMonth"] = invoices["InvoiceDate"].dt.to_period("M").astype(str)`
on one row. -/
def withYearMonth (i : Invoice) : Invoice :=
  { i with yearMonth := some (yearMonthKey i.invoiceDate) }

/-- The invoice frame as returned by `analyze_revenue` (and then consumed by
`analyze_customers` and `analyze_salespersons`): every row has gained the
`YearMonth` column. -/
def analyze_revenue_frame (invoices : List Invoice) : List Invoice :=
  invoices.map withYearMonth

/-- The `Total` column of the invoice frame. -/
def invoiceTotals (invoices : List Invoice) : List ℚ := invoices.map Invoice.total

/-- `invoices["Total"].sum()`: total revenue; pandas sums an empty series to 0. -/
def total_revenue (invoices : List Invoice) : ℚ := (invoiceTotals invoices).sum

/-- Result of `Series.mean()`: a number, or the silent `NaN` of an empty series. -/
inductive MeanResult where
  | val (q : ℚ)
  | nan
deriving DecidableEq

/-- `Series.mean()`: arithmetic mean, `NaN` on an empty series (pandas does not
raise). -/
def seriesMean (xs : List ℚ) : MeanResult :=
  if xs = [] then MeanResult.nan else MeanResult.val (xs.sum / (xs.length : ℚ))

/-- `invoices["Total"].mean()`: the average invoice value as the code computes it. -/
def avg_invoice (invoices : List Invoice) : MeanResult :=
  seriesMean (invoiceTotals invoices)

/-- Result type of the spec's `averageInvoiceValue()`. -/
inductive AvgSpecResult where
  | ok (q : ℚ)
  | emptyInputError
deriving DecidableEq

/-- Modelled from the spec: `averageInvoiceValue()` as section 4.1 words it —
"arithmetic mean of invoice totals; fails with `EmptyInputError` if there are
zero invoices".  Stated only to compare with `avg_invoice`, the behaviour the
code actually has. -/
def averageInvoiceValueSpec (invoices : List Invoice) : AvgSpecResult :=
  if invoices = [] then AvgSpecResult.emptyInputError
  else AvgSpecResult.ok (total_revenue invoices / (invoices.length : ℚ))

/-- `merge(..., how="left")` keyed by the boolean match `mt`: one output row
per matching right row, one `none`-filled row when nothing matches. -/
def leftJoin {α β : Type} (l : List α) (r : List β) (mt : α → β → Bool) :
    List (α × Option β) :=
  l.flatMap fun a =>
    match r.filter (mt a) with
    | [] => [(a, none)]
    | bs => bs.map fun b => (a, some b)

/-- The summed `val` of the rows whose (nullable) key equals `some k`. -/
def bucketSum {β K M : Type} [DecidableEq K] [AddCommMonoid M]
    (key : β → Option K) (val : β → M) (rows : List β) (k : K) : M :=
  ((rows.filter fun r => key r = some k).map val).sum

/-- `groupby(key, sort=True, dropna=True)[val].sum().reset_index()`:
deduplicated non-null keys in ascending `le` order, each with its bucket sum. -/
def groupBySum {β K M : Type} [DecidableEq K] [AddCommMonoid M]
    (le : K → K → Prop) [DecidableRel le]
    (key : β → Option K) (val : β → M) (rows : List β) : List (K × M) :=
  (List.insertionSort le (rows.filterMap key).dedup).map fun k =>
    (k, bucketSum key val rows k)

/-- `sort_values(f, ascending=False)`.  pandas' default sort kind is not
stable, so the program does not fix the relative order of tied rows; this
definition realizes one concrete descending sort, and only conclusions that
are invariant under reordering tied rows are proved from it. -/
def sortDescBy {α M : Type} [LinearOrder M] (f : α → M) (l : List α) : List α :=
  List.insertionSort (fun a b => f b ≤ f a) l

/-- `monthly_revenue`: the `YearMonth` column is added, then
`groupby("YearMonth")["Total"].sum().reset_index().sort_values("YearMonth")`.
Grouping already lists the keys in ascending string order, so the final
`sort_values` on the key column is the identity and is folded in here. -/
def monthly_revenue (invoices : List Invoice) : List (String × ℚ) :=
  groupBySum (fun a b => strLe a b = true) Invoice.yearMonth Invoice.total
    (analyze_revenue_frame invoices)

/-- `invoices.groupby("CustomerId")["Total"].sum().reset_index().merge(customers,
on="CustomerId", how="left")`. -/
def revenue_by_customer (invoices : List Invoice) (customers : List Customer) :
    List ((Nat × ℚ) × Option Customer) :=
  leftJoin (groupBySum (fun a b => a ≤ b) (fun i => some i.customerId) Invoice.total invoices)
    customers (fun g c => decide (c.customerId = g.1))

/-- `revenue_by_customer.sort_values("Total", ascending=False).head(n)`; the
script calls this with `n = 10`. -/
def top_customers (invoices : List Invoice) (customers : List Customer) (n : Nat) :
    List ((Nat × ℚ) × Option Customer) :=
  (sortDescBy (fun r => r.1.2) (revenue_by_customer invoices customers)).take n

/-- `invoices.groupby("BillingCountry")["Total"].sum().reset_index()
.sort_values("Total", ascending=False)`: note the grouping key is the
invoice's own `BillingCountry` column; the customer table is not consulted. -/
def revenue_by_country (invoices : List Invoice) : List (String × ℚ) :=
  sortDescBy Prod.snd
    (groupBySum (fun a b => strLe a b = true) Invoice.billingCountry Invoice.total invoices)

/-- `revenue_by_country.head(n)`; the script calls this with `n = 3`. -/
def top_countries (invoices : List Invoice) (n : Nat) : List (String × ℚ) :=
  (revenue_by_country invoices).take n

/-- `invoice_items.merge(tracks_genre, on="TrackId", how="left")
.merge(genres, on="GenreId", how="left")`. -/
def genre_sales (items : List InvoiceLine) (tracks : List Track) (genres : List Genre) :
    List ((InvoiceLine × Option Track) × Option Genre) :=
  leftJoin (leftJoin items tracks fun li t => decide (t.trackId = li.trackId))
    genres fun p g => decide (some g.genreId = p.2.bind Track.genreId)

/-- The `GenreName` column of the joined frame (`NaN` when unresolved). -/
def genreRowName (r : (InvoiceLine × Option Track) × Option Genre) : Option String :=
  r.2.bind Genre.name

/-- The `Quantity` column of the joined frame. -/
def genreRowQty (r : (InvoiceLine × Option Track) × Option Genre) : Nat :=
  r.1.1.quantity

/-- `genre_sales.groupby("GenreName")["Quantity"].sum().reset_index()
.sort_values("Quantity", ascending=False)`. -/
def genre_agg (items : List InvoiceLine) (tracks : List Track) (genres : List Genre) :
    List (String × Nat) :=
  sortDescBy Prod.snd
    (groupBySum (fun a b => strLe a b = true) genreRowName genreRowQty
      (genre_sales items tracks genres))

/-- The unique track row matching a line item, when track ids are unique. -/
def trackOf (tracks : List Track) (li : InvoiceLine) : Option Track :=
  tracks.find? fun t => decide (t.trackId = li.trackId)

/-- The genre name a line item resolves to through `Track.GenreId` and
`Genre.Name` (`none` when any hop is missing). -/
def resolvedGenreName (tracks : List Track) (genres : List Genre) (li : InvoiceLine) :
    Option String :=
  (genres.find? fun g => decide (some g.genreId = (trackOf tracks li).bind Track.genreId)).bind
    Genre.name

/-- `invoice_items.merge(tracks_album, on="TrackId", how="left")
.merge(albums, on="AlbumId", how="left").merge(artists, on="ArtistId", how="left")`. -/
def artist_sales (items : List InvoiceLine) (tracks : List Track)
    (albums : List Album) (artists : List Artist) :
    List (((InvoiceLine × Option Track) × Option Album) × Option Artist) :=
  leftJoin
    (leftJoin (leftJoin items tracks fun li t => decide (t.trackId = li.trackId))
      albums fun p a => decide (some a.albumId = p.2.bind Track.albumId))
    artists fun p ar => decide (some ar.artistId = p.2.map Album.artistId)

/-- The `ArtistName` column of the joined frame (`NaN` when unresolved). -/
def artistRowName (r : ((InvoiceLine × Option Track) × Option Album) × Option Artist) :
    Option String :=
  r.2.bind Artist.name

/-- The `AlbumTitle` column of the joined frame (`NaN` when unresolved). -/
def artistRowTitle (r : ((InvoiceLine × Option Track) × Option Album) × Option Artist) :
    Option String :=
  r.1.2.map Album.title

/-- The `Quantity` column of the joined frame. -/
def artistRowQty (r : ((InvoiceLine × Option Track) × Option Album) × Option Artist) : Nat :=
  r.1.1.1.quantity

/-- `artist_sales.groupby("ArtistName")["Quantity"].sum().reset_index()
.sort_values("Quantity", ascending=False)`. -/
def artist_agg (items : List InvoiceLine) (tracks : List Track)
    (albums : List Album) (artists : List Artist) : List (String × Nat) :=
  sortDescBy Prod.snd
    (groupBySum (fun a b => strLe a b = true) artistRowName artistRowQty
      (artist_sales items tracks albums artists))

/-- `artist_sales.groupby("AlbumTitle")["Quantity"].sum().reset_index()
.sort_values("Quantity", ascending=False)`: computed from the same joined
frame as `artist_agg`. -/
def album_agg (items : List InvoiceLine) (tracks : List Track)
    (albums : List Album) (artists : List Artist) : List (String × Nat) :=
  sortDescBy Prod.snd
    (groupBySum (fun a b => strLe a b = true) artistRowTitle artistRowQty
      (artist_sales items tracks albums artists))

/-- The quantity the album grouping assigns to one album title. -/
def albumBucket (rows : List (((InvoiceLine × Option Track) × Option Album) × Option Artist))
    (ttl : String) : Nat :=
  bucketSum artistRowTitle artistRowQty rows ttl

/-- The distinct album titles appearing on an artist's joined rows. -/
def artistAlbumTitles
    (rows : List (((InvoiceLine × Option Track) × Option Album) × Option Artist))
    (a : String) : List String :=
  ((rows.filter fun r => artistRowName r = some a).filterMap artistRowTitle).dedup

/-- `invoices.merge(customers, on="CustomerId", how="left")`. -/
def invoice_with_rep (invoices : List Invoice) (customers : List Customer) :
    List (Invoice × Option Customer) :=
  leftJoin invoices customers fun i c => decide (c.customerId = i.customerId)

/-- The `SupportRepId` column of the merged frame (`NaN` when the customer is
missing or has no representative). -/
def repRowKey (r : Invoice × Option Customer) : Option Nat :=
  r.2.bind Customer.supportRepId

/-- `invoice_with_rep.groupby("SupportRepId")["Total"].sum().reset_index()`. -/
def sales_groups (invoices : List Invoice) (customers : List Customer) : List (Nat × ℚ) :=
  groupBySum (fun a b => a ≤ b) repRowKey (fun r => r.1.total)
    (invoice_with_rep invoices customers)

/-- `sales_groups.merge(employees, left_on="SupportRepId", right_on="EmployeeId",
how="left").sort_values("Total", ascending=False)`. -/
def sales_by_rep (invoices : List Invoice) (customers : List Customer)
    (employees : List Employee) : List ((Nat × ℚ) × Option Employee) :=
  sortDescBy (fun r => r.1.2)
    (leftJoin (sales_groups invoices customers) employees fun g e =>
      decide (e.employeeId = g.1))

/-- The support representative an invoice's customer resolves to. -/
def repOf (customers : List Customer) (i : Invoice) : Option Nat :=
  (customers.find? fun c => decide (c.customerId = i.customerId)).bind Customer.supportRepId

/-! Order lemmas for the embedded Python string comparison. -/

lemma charListLt_cons_iff (a b : Char) (as bs : List Char) :
    charListLt (a :: as) (b :: bs) = true ↔ a < b ∨ (a = b ∧ charListLt as bs = true) := by
  by_cases h1 : a < b
  · simp [charListLt, h1]
  · by_cases h2 : a = b
    · subst h2
      simp [charListLt, lt_irrefl]
    · simp [charListLt, h1, h2]

lemma charListLt_irrefl (l : List Char) : charListLt l l = false := by
  induction l with
  | nil => rfl
  | cons a as ih => simp [charListLt, lt_irrefl, ih]

lemma charListLt_trans {a b c : List Char} (h1 : charListLt a b = true)
    (h2 : charListLt b c = true) : charListLt a c = true := by
  induction a generalizing b c with
  | nil =>
    cases c with
    | nil =>
      cases b with
      | nil => simp [charListLt] at h1
      | cons y ys => simp [charListLt] at h2
    | cons z zs => rfl
  | cons x xs ih =>
    cases b with
    | nil => simp [charListLt] at h1
    | cons y ys =>
      cases c with
      | nil => simp [charListLt] at h2
      | cons z zs =>
        rw [charListLt_cons_iff] at h1 h2 ⊢
        rcases h1 with h1 | ⟨rfl, h1⟩
        · rcases h2 with h2 | ⟨rfl, h2⟩
          · exact Or.inl (lt_trans h1 h2)
          · exact Or.inl h1
        · rcases h2 with h2 | ⟨rfl, h2⟩
          · exact Or.inl h2
          · exact Or.inr ⟨rfl, ih h1 h2⟩

lemma charListLt_asymm {a b : List Char} (h : charListLt a b = true) :
    charListLt b a = false := by
  cases hc : charListLt b a
  · rfl
  · have h2 := charListLt_trans h hc
    rw [charListLt_irrefl] at h2
    exact absurd h2 (by simp)

lemma charListLt_eq_of_not_lt {a b : List Char} (h1 : charListLt a b = false)
    (h2 : charListLt b a = false) : a = b := by
  induction a generalizing b with
  | nil =>
    cases b with
    | nil => rfl
    | cons y ys => simp [charListLt] at h1
  | cons x xs ih =>
    cases b with
    | nil => simp [charListLt] at h2
    | cons y ys =>
      have h1' : ¬ (x < y ∨ (x = y ∧ charListLt xs ys = true)) := by
        rw [← charListLt_cons_iff x y xs ys]
        simp [h1]
      have h2' : ¬ (y < x ∨ (y = x ∧ charListLt ys xs = true)) := by
        rw [← charListLt_cons_iff y x ys xs]
        simp [h2]
      push_neg at h1' h2'
      have hxy : x = y := le_antisymm h2'.1 h1'.1
      subst hxy
      have t1 : charListLt xs ys = false := by
        have := h1'.2 rfl
        simpa using this
      have t2 : charListLt ys xs = false := by
        have := h2'.2 rfl
        simpa using this
      rw [ih t1 t2]

lemma strLe_total (s t : String) : strLe s t = true ∨ strLe t s = true := by
  cases h : strLt t s
  · exact Or.inl (by simp [strLe, h])
  · refine Or.inr ?_
    have h2 : charListLt s.data t.data = false := charListLt_asymm h
    simp [strLe, strLt, h2]

lemma strLe_trans {s t u : String} (h1 : strLe s t = true) (h2 : strLe t u = true) :
    strLe s u = true := by
  simp only [strLe, strLt, Bool.not_eq_true'] at h1 h2 ⊢
  cases hc : charListLt u.data s.data
  · rfl
  · exfalso
    cases htu : charListLt t.data u.data
    · have he : t.data = u.data := charListLt_eq_of_not_lt htu h2
      rw [he] at h1
      rw [h1] at hc
      exact Bool.noConfusion hc
    · have h3 := charListLt_trans htu hc
      rw [h1] at h3
      exact Bool.noConfusion h3

/-! Generic lemmas about the embedded sorts, joins and grouped sums. -/

lemma pairwise_true {α : Type} (l : List α) : l.Pairwise fun _ _ => True := by
  induction l with
  | nil => exact List.Pairwise.nil
  | cons a as ih => exact List.Pairwise.cons (fun _ _ => trivial) ih

lemma pairwise_orderedInsert_stable {α : Type} (r : α → α → Prop) [DecidableRel r]
    (htot : ∀ a b, r a b ∨ r b a) (htr : ∀ a b c, r a b → r b c → r a c)
    (Q : α → α → Prop) (a : α) (l : List α)
    (hp : l.Pairwise fun x y => r x y ∧ (r y x → Q x y))
    (ha : ∀ b ∈ l, Q a b) :
    (List.orderedInsert r a l).Pairwise fun x y => r x y ∧ (r y x → Q x y) := by
  induction l with
  | nil => simp
  | cons b l ih =>
    simp only [List.orderedInsert]
    by_cases hab : r a b
    · rw [if_pos hab, List.pairwise_cons]
      refine ⟨?_, hp⟩
      intro c hc
      rcases List.mem_cons.mp hc with rfl | hcl
      · exact ⟨hab, fun _ => ha c (List.mem_cons_self c l)⟩
      · have hbc := (List.pairwise_cons.mp hp).1 c hcl
        exact ⟨htr a b c hab hbc.1, fun _ => ha c (List.mem_cons_of_mem b hcl)⟩
    · rw [if_neg hab, List.pairwise_cons]
      have hba : r b a := (htot a b).resolve_left hab
      constructor
      · intro c hc
        rcases (List.mem_orderedInsert r).mp hc with rfl | hcl
        · exact ⟨hba, fun hab' => absurd hab' hab⟩
        · exact (List.pairwise_cons.mp hp).1 c hcl
      · exact ih (List.pairwise_cons.mp hp).2 fun c hc => ha c (List.mem_cons_of_mem b hc)

lemma pairwise_insertionSort_stable {α : Type} (r : α → α → Prop) [DecidableRel r]
    (htot : ∀ a b, r a b ∨ r b a) (htr : ∀ a b c, r a b → r b c → r a c)
    (Q : α → α → Prop) {l : List α} (hl : l.Pairwise Q) :
    (List.insertionSort r l).Pairwise fun x y => r x y ∧ (r y x → Q x y) := by
  induction hl with
  | nil => simp
  | @cons a l h hp ih =>
    simp only [List.insertionSort]
    exact pairwise_orderedInsert_stable r htot htr Q a _ ih
      fun b hb => h b (((List.perm_insertionSort r l).mem_iff).mp hb)

lemma pairwise_insertionSort_of {α : Type} (r : α → α → Prop) [DecidableRel r]
    (htot : ∀ a b, r a b ∨ r b a) (htr : ∀ a b c, r a b → r b c → r a c)
    (l : List α) : (List.insertionSort r l).Pairwise r :=
  (pairwise_insertionSort_stable r htot htr (fun _ _ => True) (pairwise_true l)).imp
    fun h => h.1

lemma sum_filter_or {β M : Type} [AddCommMonoid M] (v : β → M) (p q : β → Bool)
    (hd : ∀ r, p r = true → q r = false) (l : List β) :
    ((l.filter fun r => p r || q r).map v).sum
      = ((l.filter p).map v).sum + ((l.filter q).map v).sum := by
  induction l with
  | nil => simp
  | cons a l ih =>
    cases hpa : p a
    · cases hqa : q a
      · simp [List.filter_cons, hpa, hqa, ih]
      · simp [List.filter_cons, hpa, hqa, ih, add_assoc, add_left_comm]
    · have hqa : q a = false := hd a hpa
      simp [List.filter_cons, hpa, hqa, ih, add_assoc]

lemma sum_over_keys {β K M : Type} [DecidableEq K] [AddCommMonoid M]
    (key : β → Option K) (v : β → M) (l : List β) :
    ∀ ks : List K, ks.Nodup →
      ((ks.map fun k => bucketSum key v l k).sum
        = ((l.filter fun r => decide (key r ∈ ks.map some)).map v).sum) := by
  intro ks
  induction ks with
  | nil =>
    intro _
    simp
  | cons k ks ih =>
    intro hnd
    have hk : k ∉ ks := (List.nodup_cons.mp hnd).1
    have hks := (List.nodup_cons.mp hnd).2
    rw [List.map_cons, List.sum_cons, ih hks]
    have hcong : ∀ r ∈ l, (decide (key r ∈ (k :: ks).map some) : Bool)
        = ((decide (key r = some k)) || (decide (key r ∈ ks.map some))) := by
      intro r _
      by_cases h1 : key r = some k
      · simp [h1]
      · by_cases h2 : key r ∈ ks.map some
        · simp [h1, h2]
        · simp [h1, h2]
    rw [List.filter_congr hcong]
    rw [sum_filter_or v _ _ ?_ l]
    · rfl
    · intro r h1
      have h1' : key r = some k := by simpa using h1
      simp only [h1', decide_eq_false_iff_not]
      intro hmem
      obtain ⟨k', hk', he⟩ := List.mem_map.mp hmem
      exact hk (by rwa [Option.some_inj.mp he] at hk')

lemma mem_groupBySum_iff {β K M : Type} [DecidableEq K] [AddCommMonoid M]
    (le : K → K → Prop) [DecidableRel le] (key : β → Option K) (val : β → M)
    (rows : List β) (k : K) (m : M) :
    (k, m) ∈ groupBySum le key val rows ↔
      ((∃ r ∈ rows, key r = some k) ∧ m = bucketSum key val rows k) := by
  unfold groupBySum
  rw [List.mem_map]
  constructor
  · rintro ⟨k', hk', he⟩
    have hk1 : k' = k := congrArg Prod.fst he
    have hm : m = bucketSum key val rows k := by
      have h2 := congrArg Prod.snd he
      rw [hk1] at h2
      exact h2.symm
    rw [hk1] at hk'
    have h1 : k ∈ (rows.filterMap key).dedup :=
      ((List.perm_insertionSort le _).mem_iff).mp hk'
    obtain ⟨r, hr, hkey⟩ := List.mem_filterMap.mp (List.mem_dedup.mp h1)
    exact ⟨⟨r, hr, hkey⟩, hm⟩
  · rintro ⟨⟨r, hr, hkey⟩, rfl⟩
    refine ⟨k, ?_, rfl⟩
    exact ((List.perm_insertionSort le _).mem_iff).mpr
      (List.mem_dedup.mpr (List.mem_filterMap.mpr ⟨r, hr, hkey⟩))

lemma groupBySum_snd_sum {β K M : Type} [DecidableEq K] [AddCommMonoid M]
    (le : K → K → Prop) [DecidableRel le] (key : β → Option K) (val : β → M)
    (rows : List β) :
    ((groupBySum le key val rows).map Prod.snd).sum
      = ((rows.filter fun r => (key r).isSome).map val).sum := by
  unfold groupBySum
  rw [List.map_map]
  have h1 : (Prod.snd ∘ fun k => ((k, bucketSum key val rows k) : K × M))
      = fun k => bucketSum key val rows k := rfl
  rw [h1]
  have hperm :
      ((List.insertionSort le (rows.filterMap key).dedup).map
          fun k => bucketSum key val rows k).Perm
        (((rows.filterMap key).dedup).map fun k => bucketSum key val rows k) :=
    (List.perm_insertionSort le _).map _
  rw [hperm.sum_eq, sum_over_keys key val rows _ (List.nodup_dedup _)]
  have hc : ∀ r ∈ rows, (decide (key r ∈ ((rows.filterMap key).dedup).map some) : Bool)
      = (key r).isSome := by
    intro r hr
    cases hk : key r with
    | none => simp
    | some k =>
      have hmem : k ∈ rows.filterMap key := List.mem_filterMap.mpr ⟨r, hr, hk⟩
      simp only [Option.isSome_some, decide_eq_true_eq]
      exact List.mem_map.mpr ⟨k, List.mem_dedup.mpr hmem, rfl⟩
  rw [List.filter_congr hc]

lemma groupBySum_pairwise {β K M : Type} [DecidableEq K] [AddCommMonoid M]
    (le : K → K → Prop) [DecidableRel le]
    (htot : ∀ a b, le a b ∨ le b a) (htr : ∀ a b c : K, le a b → le b c → le a c)
    (key : β → Option K) (val : β → M) (rows : List β) :
    (groupBySum le key val rows).Pairwise fun p q => le p.1 q.1 := by
  unfold groupBySum
  exact List.Pairwise.map _ (fun a b h => h)
    (pairwise_insertionSort_of le htot htr _)

lemma groupBySum_fst_nodup {β K M : Type} [DecidableEq K] [AddCommMonoid M]
    (le : K → K → Prop) [DecidableRel le] (key : β → Option K) (val : β → M)
    (rows : List β) :
    ((groupBySum le key val rows).map Prod.fst).Nodup := by
  unfold groupBySum
  rw [List.map_map]
  have h1 : (Prod.fst ∘ fun k => ((k, bucketSum key val rows k) : K × M)) = id := rfl
  rw [h1, List.map_id]
  exact ((List.perm_insertionSort le _).nodup_iff).mpr (List.nodup_dedup _)

lemma groupBySum_map {β γ K M : Type} [DecidableEq K] [AddCommMonoid M]
    (le : K → K → Prop) [DecidableRel le] (key : γ → Option K) (val : γ → M)
    (f : β → γ) (l : List β) :
    groupBySum le key val (l.map f)
      = groupBySum le (fun a => key (f a)) (fun a => val (f a)) l := by
  simp only [groupBySum, bucketSum, List.filterMap_map, List.filter_map, List.map_map]
  rfl

lemma find?_eq_head?_filter {β : Type} (p : β → Bool) (r : List β) :
    r.find? p = (r.filter p).head? := by
  induction r with
  | nil => rfl
  | cons b r ih =>
    cases hb : p b
    · rw [List.find?_cons_of_neg r (by simp [hb]), List.filter_cons_of_neg (by simp [hb]), ih]
    · rw [List.find?_cons_of_pos r hb, List.filter_cons_of_pos hb]
      rfl

lemma filter_key_len_le_one {β K : Type} [DecidableEq K] (r : List β) (kf : β → K)
    (hn : (r.map kf).Nodup) (k : K) :
    (r.filter fun b => decide (kf b = k)).length ≤ 1 := by
  induction r with
  | nil => simp
  | cons b r ih =>
    rw [List.map_cons, List.nodup_cons] at hn
    rw [List.filter_cons]
    by_cases hb : kf b = k
    · rw [if_pos (by simp [hb])]
      have hnil : r.filter (fun b => decide (kf b = k)) = [] := by
        rw [List.filter_eq_nil_iff]
        intro c hc hkc
        have hck : kf c = k := by simpa using hkc
        exact hn.1 (List.mem_map.mpr ⟨c, hc, by rw [hck, hb]⟩)
      rw [hnil]
      simp
    · rw [if_neg (by simp [hb])]
      exact Nat.le_trans (ih hn.2) (by omega)

lemma leftJoin_eq_map_find? {α β : Type} (l : List α) (r : List β) (mt : α → β → Bool)
    (h : ∀ a, (r.filter (mt a)).length ≤ 1) :
    leftJoin l r mt = l.map fun a => (a, r.find? (mt a)) := by
  unfold leftJoin
  induction l with
  | nil => rfl
  | cons a l ih =>
    rw [List.flatMap_cons, ih, List.map_cons]
    have hmatch : (match r.filter (mt a) with
        | [] => [(a, (none : Option β))]
        | bs => bs.map fun b => (a, some b)) = [(a, r.find? (mt a))] := by
      rw [find?_eq_head?_filter]
      cases hf : r.filter (mt a) with
      | nil => rfl
      | cons b bs =>
        have hlen := h a
        rw [hf] at hlen
        have hbs : bs = [] := by
          rw [List.length_cons] at hlen
          exact List.length_eq_zero.mp (by omega)
        subst hbs
        rfl
    rw [hmatch, List.singleton_append]

lemma mem_leftJoin_some {α β : Type} (l : List α) (r : List β) (mt : α → β → Bool)
    {a : α} {b : β} (h : (a, some b) ∈ leftJoin l r mt) :
    a ∈ l ∧ b ∈ r ∧ mt a b = true := by
  unfold leftJoin at h
  obtain ⟨a', ha', hmem⟩ := List.mem_flatMap.mp h
  cases hf : r.filter (mt a') with
  | nil =>
    rw [hf] at hmem
    simp at hmem
  | cons c cs =>
    rw [hf] at hmem
    obtain ⟨b', hb', heq⟩ := List.mem_map.mp hmem
    obtain ⟨rfl, rfl⟩ : a' = a ∧ b' = b := by
      constructor
      · exact congrArg Prod.fst heq
      · exact Option.some_inj.mp (congrArg Prod.snd heq)
    rw [← hf] at hb'
    have hfb := List.mem_filter.mp hb'
    exact ⟨ha', hfb.1, hfb.2⟩

lemma leftJoin_map_left {α α' β : Type} (w : α → α') (l : List α) (r : List β)
    (mt : α' → β → Bool) :
    leftJoin (l.map w) r mt
      = (leftJoin l r fun a b => mt (w a) b).map fun p => (w p.1, p.2) := by
  unfold leftJoin
  induction l with
  | nil => rfl
  | cons a l ih =>
    rw [List.map_cons, List.flatMap_cons, List.flatMap_cons, ih, List.map_append]
    congr 1
    cases hf : r.filter (mt (w a)) with
    | nil => simp [hf]
    | cons c cs => simp [hf]

lemma sortDescBy_perm {α M : Type} [LinearOrder M] (f : α → M) (l : List α) :
    (sortDescBy f l).Perm l :=
  List.perm_insertionSort _ l

lemma sortDescBy_pairwise {α M : Type} [LinearOrder M] (f : α → M) (l : List α) :
    (sortDescBy f l).Pairwise fun x y => f y ≤ f x :=
  pairwise_insertionSort_of _ (fun a b => le_total (f b) (f a))
    (fun _ _ _ h1 h2 => le_trans h2 h1) l

lemma strLe_total' : ∀ a b : String, (strLe a b = true) ∨ (strLe b a = true) :=
  strLe_total

lemma strLe_trans' : ∀ a b c : String,
    strLe a b = true → strLe b c = true → strLe a c = true :=
  fun _ _ _ h1 h2 => strLe_trans h1 h2

lemma charListLt_nil_right (l : List Char) : charListLt l [] = false := by
  cases l <;> rfl

lemma dc_lt_iff_all : ∀ a ≤ 9, ∀ b ≤ 9, (dc a < dc b ↔ a < b) := by decide

lemma dc_eq_iff_all : ∀ a ≤ 9, ∀ b ≤ 9, (dc a = dc b ↔ a = b) := by decide

lemma yearMonthKey_lt_iff (d1 d2 : Date) (h1 : validDate d1) (h2 : validDate d2) :
    (strLt (yearMonthKey d1) (yearMonthKey d2) = true)
      ↔ (d1.year < d2.year ∨ (d1.year = d2.year ∧ d1.month < d2.month)) := by
  obtain ⟨hm1, hm12, hy1⟩ := h1
  obtain ⟨hm2, hm22, hy2⟩ := h2
  show charListLt (pad4 d1.year ++ '-' :: pad2 d1.month)
      (pad4 d2.year ++ '-' :: pad2 d2.month) = true ↔ _
  simp only [pad4, pad2, List.cons_append, List.nil_append]
  rw [charListLt_cons_iff, charListLt_cons_iff, charListLt_cons_iff, charListLt_cons_iff,
    charListLt_cons_iff, charListLt_cons_iff, charListLt_cons_iff]
  have l1 := dc_lt_iff_all (d1.year / 1000) (by omega) (d2.year / 1000) (by omega)
  have q1 := dc_eq_iff_all (d1.year / 1000) (by omega) (d2.year / 1000) (by omega)
  have l2 := dc_lt_iff_all (d1.year / 100 % 10) (by omega) (d2.year / 100 % 10) (by omega)
  have q2 := dc_eq_iff_all (d1.year / 100 % 10) (by omega) (d2.year / 100 % 10) (by omega)
  have l3 := dc_lt_iff_all (d1.year / 10 % 10) (by omega) (d2.year / 10 % 10) (by omega)
  have q3 := dc_eq_iff_all (d1.year / 10 % 10) (by omega) (d2.year / 10 % 10) (by omega)
  have l4 := dc_lt_iff_all (d1.year % 10) (by omega) (d2.year % 10) (by omega)
  have q4 := dc_eq_iff_all (d1.year % 10) (by omega) (d2.year % 10) (by omega)
  have l5 := dc_lt_iff_all (d1.month / 10) (by omega) (d2.month / 10) (by omega)
  have q5 := dc_eq_iff_all (d1.month / 10) (by omega) (d2.month / 10) (by omega)
  have l6 := dc_lt_iff_all (d1.month % 10) (by omega) (d2.month % 10) (by omega)
  have q6 := dc_eq_iff_all (d1.month % 10) (by omega) (d2.month % 10) (by omega)
  rw [l1, q1, l2, q2, l3, q3, l4, q4, l5, q5, l6, q6]
  simp only [charListLt_nil_right, Bool.false_eq_true, lt_self_iff_false, false_or,
    and_false, or_false, eq_self_iff_true, true_and]
  have e1 : d1.year / 100 / 10 = d1.year / 1000 := by rw [Nat.div_div_eq_div_mul]
  have e2 : d1.year / 10 / 10 = d1.year / 100 := by rw [Nat.div_div_eq_div_mul]
  have e3 : d2.year / 100 / 10 = d2.year / 1000 := by rw [Nat.div_div_eq_div_mul]
  have e4 : d2.year / 10 / 10 = d2.year / 100 := by rw [Nat.div_div_eq_div_mul]
  omega

/-! The claims.  Each claim of the specification is settled by exactly one
theorem below (with, where needed, a counterexample theorem refuting the
claim as literally stated, and a witness theorem instantiating a proved
theorem that carries hypotheses). -/

/-- C1, counterexample: on the empty invoice collection the code's
`invoices["Total"].mean()` silently evaluates to `NaN`; no `EmptyInputError`
(or any error) is raised, contradicting the claim.  The spec-modelled
`averageInvoiceValueSpec` shows what the claim demanded instead. -/
theorem C1_counterexample :
    avg_invoice [] = MeanResult.nan
      ∧ averageInvoiceValueSpec [] = AvgSpecResult.emptyInputError := by
  constructor <;> rfl

/-- C1, amended: on the empty invoice collection `avg_invoice` silently
produces `NaN` (it does not fail); on a single invoice it returns that
invoice's total (in particular 42.0 for a total of 42.0). -/
theorem C1_amended :
    avg_invoice [] = MeanResult.nan
      ∧ ∀ i : Invoice, avg_invoice [i] = MeanResult.val i.total := by
  constructor
  · rfl
  · intro i
    show seriesMean [i.total] = MeanResult.val i.total
    rw [seriesMean, if_neg (by simp)]
    simp

/-- C2, counterexample: a line item of quantity 5 whose track id (99) is
absent from the track table is dropped entirely by the genre aggregation
(`groupby` discards `NaN` keys): `genre_agg` is empty, with no "unknown"
bucket, and the summed bucket quantity 0 differs from the summed line-item
quantity 5. -/
theorem C2_counterexample :
    genre_agg [⟨1, 99, 5⟩] [] [] = []
      ∧ (([⟨1, 99, 5⟩] : List InvoiceLine).map InvoiceLine.quantity).sum = 5
      ∧ ((genre_agg [⟨1, 99, 5⟩] [] []).map Prod.snd).sum
          ≠ (([⟨1, 99, 5⟩] : List InvoiceLine).map InvoiceLine.quantity).sum := by
  refine ⟨?_, ?_, ?_⟩ <;> decide

/-- C2, amended: with unique track and genre ids, the total summed quantity
across all buckets of the genre aggregation equals the summed quantity of
exactly those line items whose genre name resolves (track found, genre id
present, genre found); line items that do not resolve are silently dropped,
there is no "unknown" bucket. -/
theorem C2_amended (items : List InvoiceLine) (tracks : List Track) (genres : List Genre)
    (h1 : (tracks.map Track.trackId).Nodup) (h2 : (genres.map Genre.genreId).Nodup) :
    ((genre_agg items tracks genres).map Prod.snd).sum
      = ((items.filter fun li => (resolvedGenreName tracks genres li).isSome).map
          InvoiceLine.quantity).sum := by
  have ht : ∀ li : InvoiceLine,
      (tracks.filter fun t => decide (t.trackId = li.trackId)).length ≤ 1 :=
    fun li => filter_key_len_le_one tracks Track.trackId h1 li.trackId
  have hn2 : (genres.map fun g => some g.genreId : List (Option Nat)).Nodup := by
    have hm := h2.map (Option.some_injective Nat)
    rwa [List.map_map] at hm
  have hg : ∀ p : InvoiceLine × Option Track,
      (genres.filter fun g => decide (some g.genreId = p.2.bind Track.genreId)).length ≤ 1 :=
    fun p => filter_key_len_le_one genres (fun g => some g.genreId) hn2 _
  have hj2 : genre_sales items tracks genres
      = items.map fun li =>
          ((li, trackOf tracks li),
            genres.find? fun g =>
              decide (some g.genreId = (trackOf tracks li).bind Track.genreId)) := by
    unfold genre_sales
    rw [leftJoin_eq_map_find? items tracks _ ht]
    rw [leftJoin_eq_map_find? _ genres _ hg]
    rw [List.map_map]
    rfl
  unfold genre_agg
  rw [((sortDescBy_perm Prod.snd _).map Prod.snd).sum_eq, groupBySum_snd_sum, hj2]
  rw [List.filter_map, List.map_map]
  rfl

/-- C2, witness for the amended theorem at a concrete resolving input. -/
theorem C2_amended_witness :
    ((([⟨1, some 1, some 1⟩] : List Track).map Track.trackId).Nodup
        ∧ (([⟨1, some "Rock"⟩] : List Genre).map Genre.genreId).Nodup)
      ∧ ((genre_agg [⟨1, 1, 2⟩] [⟨1, some 1, some 1⟩] [⟨1, some "Rock"⟩]).map Prod.snd).sum
          = ((([⟨1, 1, 2⟩] : List InvoiceLine).filter fun li =>
              (resolvedGenreName [⟨1, some 1, some 1⟩] [⟨1, some "Rock"⟩] li).isSome).map
              InvoiceLine.quantity).sum :=
  ⟨⟨by decide, by decide⟩, C2_amended _ _ _ (by decide) (by decide)⟩

/-- C3, counterexample: an invoice of total 10 whose customer has no support
representative is dropped entirely by the salesperson aggregation (`groupby`
discards the `NaN` `SupportRepId`): `sales_by_rep` is empty, with no
"unassigned" bucket, and the summed bucket revenue 0 differs from
`totalRevenue` = 10. -/
theorem C3_counterexample :
    sales_by_rep [⟨1, 1, ⟨2024, 1, 5⟩, some "USA", 10, none⟩]
        [⟨1, "Ann", "Lee", some "USA", none⟩] [] = []
      ∧ total_revenue [⟨1, 1, ⟨2024, 1, 5⟩, some "USA", 10, none⟩] = 10
      ∧ ((sales_by_rep [⟨1, 1, ⟨2024, 1, 5⟩, some "USA", 10, none⟩]
            [⟨1, "Ann", "Lee", some "USA", none⟩] []).map fun r => r.1.2).sum
          ≠ total_revenue [⟨1, 1, ⟨2024, 1, 5⟩, some "USA", 10, none⟩] := by
  have h1 : sales_by_rep [⟨1, 1, ⟨2024, 1, 5⟩, some "USA", 10, none⟩]
      [⟨1, "Ann", "Lee", some "USA", none⟩] [] = [] := by decide
  refine ⟨h1, ?_, ?_⟩
  · simp [total_revenue, invoiceTotals]
  · rw [h1]
    simp [total_revenue, invoiceTotals]

/-- C3, amended: with unique customer and employee ids, the sum over all
buckets of the salesperson aggregation equals the summed total of exactly
those invoices whose customer resolves to a non-null support representative
id; invoices without one are silently dropped, there is no "unassigned"
bucket (so the sum falls short of `totalRevenue` whenever such invoices
exist). -/
theorem C3_amended (invoices : List Invoice) (customers : List Customer)
    (employees : List Employee)
    (hc : (customers.map Customer.customerId).Nodup)
    (he : (employees.map Employee.employeeId).Nodup) :
    ((sales_by_rep invoices customers employees).map fun r => r.1.2).sum
      = ((invoices.filter fun i => (repOf customers i).isSome).map Invoice.total).sum := by
  have hcl : ∀ i : Invoice,
      (customers.filter fun c => decide (c.customerId = i.customerId)).length ≤ 1 :=
    fun i => filter_key_len_le_one customers Customer.customerId hc i.customerId
  have hel : ∀ g : Nat × ℚ,
      (employees.filter fun e => decide (e.employeeId = g.1)).length ≤ 1 :=
    fun g => filter_key_len_le_one employees Employee.employeeId he g.1
  unfold sales_by_rep
  have hperm := ((sortDescBy_perm (fun r : (Nat × ℚ) × Option Employee => r.1.2)
      (leftJoin (sales_groups invoices customers) employees fun g e =>
        decide (e.employeeId = g.1))).map fun r => r.1.2)
  rw [hperm.sum_eq]
  rw [leftJoin_eq_map_find? _ employees _ hel]
  rw [List.map_map]
  show ((sales_groups invoices customers).map Prod.snd).sum = _
  unfold sales_groups invoice_with_rep
  rw [groupBySum_snd_sum]
  rw [leftJoin_eq_map_find? invoices customers _ hcl]
  rw [List.filter_map, List.map_map]
  rfl

/-- C3, witness for the amended theorem at a concrete resolving input. -/
theorem C3_amended_witness :
    ((([⟨1, "Ann", "Lee", some "USA", some 5⟩] : List Customer).map
          Customer.customerId).Nodup
        ∧ (([⟨5, "Jane", "Doe"⟩] : List Employee).map Employee.employeeId).Nodup)
      ∧ ((sales_by_rep [⟨1, 1, ⟨2024, 1, 5⟩, some "USA", 10, none⟩]
            [⟨1, "Ann", "Lee", some "USA", some 5⟩] [⟨5, "Jane", "Doe"⟩]).map
            fun r => r.1.2).sum
          = (([⟨1, 1, ⟨2024, 1, 5⟩, some "USA", 10, none⟩].filter fun i =>
              (repOf [⟨1, "Ann", "Lee", some "USA", some 5⟩] i).isSome).map
              Invoice.total).sum :=
  ⟨⟨by decide, by decide⟩, C3_amended _ _ _ (by decide) (by decide)⟩

/-- C6, counterexample: an invoice of total 7 whose billing country is null
is dropped entirely by the country aggregation (`groupby` discards `NaN`
keys): `revenue_by_country` is empty — there is no "unknown" bucket — and
the summed bucket revenue differs from `totalRevenue`. -/
theorem C6_counterexample :
    revenue_by_country [⟨1, 1, ⟨2024, 1, 5⟩, none, 7, none⟩] = []
      ∧ total_revenue [⟨1, 1, ⟨2024, 1, 5⟩, none, 7, none⟩] = 7
      ∧ ((revenue_by_country [⟨1, 1, ⟨2024, 1, 5⟩, none, 7, none⟩]).map Prod.snd).sum
          ≠ total_revenue [⟨1, 1, ⟨2024, 1, 5⟩, none, 7, none⟩] := by
  have h1 : revenue_by_country [⟨1, 1, ⟨2024, 1, 5⟩, none, 7, none⟩] = [] := by decide
  refine ⟨h1, ?_, ?_⟩
  · simp [total_revenue, invoiceTotals]
  · rw [h1]
    simp [total_revenue, invoiceTotals]

/-- C6, amended: `topCountriesByRevenue(n)` sums invoice totals grouped by
the invoice's own billing-country field (the customer table is not
consulted), sorted non-increasing, with at most `n` entries; rows whose
country is missing are silently dropped (no "unknown" bucket), so the
bucket sums add up to the revenue of the invoices with a known country only,
and each bucket is the exact sum over its country. -/
theorem C6_amended (invoices : List Invoice) (n : Nat) :
    ((revenue_by_country invoices).map Prod.snd).sum
        = ((invoices.filter fun i => i.billingCountry.isSome).map Invoice.total).sum
      ∧ (∀ p ∈ revenue_by_country invoices,
          p.2 = bucketSum Invoice.billingCountry Invoice.total invoices p.1
            ∧ ∃ i ∈ invoices, i.billingCountry = some p.1)
      ∧ (revenue_by_country invoices).Pairwise (fun x y => y.2 ≤ x.2)
      ∧ (top_countries invoices n).length ≤ n
      ∧ ∀ p ∈ top_countries invoices n, p ∈ revenue_by_country invoices := by
  refine ⟨?_, ?_, ?_, ?_, ?_⟩
  · unfold revenue_by_country
    rw [((sortDescBy_perm Prod.snd _).map Prod.snd).sum_eq]
    exact groupBySum_snd_sum _ _ _ _
  · intro p hp
    obtain ⟨p1, p2⟩ := p
    have hp' := ((sortDescBy_perm Prod.snd _).mem_iff).mp hp
    rw [mem_groupBySum_iff] at hp'
    exact ⟨hp'.2, hp'.1⟩
  · exact sortDescBy_pairwise Prod.snd _
  · exact List.length_take_le n _
  · intro p hp
    exact (List.take_sublist n _).subset hp

/-- C5, counterexample: the claim quantifies over every invoice/customer
collection, but with a duplicated customer id (two customer rows with id 1)
the left merge duplicates the group row, so `topCustomersByRevenue(10)`
returns 2 entries for a single customer group — not "exactly the full set of
customer groups when n exceeds the group count".  (The stable-tie conjunct is
likewise no guarantee of the program: pandas documents its default sort kind
as not stable, so tie order is unspecified.) -/
theorem C5_counterexample :
    (top_customers [⟨1, 1, ⟨2024, 1, 5⟩, some "USA", 10, none⟩]
        [⟨1, "Ann", "Lee", some "USA", none⟩, ⟨1, "Bob", "May", some "USA", none⟩]
        10).length = 2
      ∧ (([⟨1, 1, ⟨2024, 1, 5⟩, some "USA", 10, none⟩] : List Invoice).map
          Invoice.customerId).dedup.length = 1
      ∧ (1 : Nat) ≤ 10
      ∧ (2 : Nat) ≠ 1 := by
  refine ⟨?_, by decide, by decide, by decide⟩
  have h1 : (revenue_by_customer [⟨1, 1, ⟨2024, 1, 5⟩, some "USA", 10, none⟩]
      [⟨1, "Ann", "Lee", some "USA", none⟩, ⟨1, "Bob", "May", some "USA", none⟩]).length
      = 2 := by decide
  show ((sortDescBy (fun r : (Nat × ℚ) × Option Customer => r.1.2)
      (revenue_by_customer [⟨1, 1, ⟨2024, 1, 5⟩, some "USA", 10, none⟩]
        [⟨1, "Ann", "Lee", some "USA", none⟩,
          ⟨1, "Bob", "May", some "USA", none⟩])).take 10).length = 2
  rw [List.length_take, (sortDescBy_perm _ _).length_eq, h1]
  decide

/-- C5, amended: with unique customer ids (the customer table's primary key),
`topCustomersByRevenue(n)` has at most `n` entries, sorted non-increasing by
total — the program leaves the order among tied totals unspecified (pandas'
default sort kind is not stable), so no tie-break is asserted; every entry
carries the exact revenue sum of its customer id, a customer id that actually
invoices, and that customer's joined display row; and when `n` is at least
the number of customer groups the result is exactly the full set of groups.
Every conjunct is invariant under reordering tied rows, so none depends on
which descending sort `sortDescBy` realizes. -/
theorem C5_amended (invoices : List Invoice) (customers : List Customer) (n : Nat)
    (hc : (customers.map Customer.customerId).Nodup) :
    (top_customers invoices customers n).length ≤ n
      ∧ (top_customers invoices customers n).Pairwise (fun x y => y.1.2 ≤ x.1.2)
      ∧ (∀ p ∈ top_customers invoices customers n,
          p.1.2 = bucketSum (fun i => some i.customerId) Invoice.total invoices p.1.1
            ∧ (∃ i ∈ invoices, i.customerId = p.1.1)
            ∧ p.2 = customers.find? fun c => decide (c.customerId = p.1.1))
      ∧ ((invoices.map Invoice.customerId).dedup.length ≤ n →
          (top_customers invoices customers n).length
              = (invoices.map Invoice.customerId).dedup.length
            ∧ ∀ k : Nat, (∃ p ∈ top_customers invoices customers n, p.1.1 = k)
                ↔ k ∈ invoices.map Invoice.customerId) := by
  have hrc : revenue_by_customer invoices customers
      = (groupBySum (fun a b => a ≤ b) (fun i => some i.customerId) Invoice.total
          invoices).map fun g =>
            (g, customers.find? fun c => decide (c.customerId = g.1)) := by
    unfold revenue_by_customer
    exact leftJoin_eq_map_find? _ _ _
      fun g => filter_key_len_le_one customers Customer.customerId hc g.1
  have hsorted : (sortDescBy (fun r : (Nat × ℚ) × Option Customer => r.1.2)
      (revenue_by_customer invoices customers)).Pairwise
        fun x y => y.1.2 ≤ x.1.2 :=
    sortDescBy_pairwise _ _
  refine ⟨?_, ?_, ?_, ?_⟩
  · exact List.length_take_le n _
  · exact List.Pairwise.sublist (List.take_sublist n _) hsorted
  · intro p hp
    have hp1 : p ∈ sortDescBy (fun r : (Nat × ℚ) × Option Customer => r.1.2)
        (revenue_by_customer invoices customers) := (List.take_sublist n _).subset hp
    have hp2 : p ∈ revenue_by_customer invoices customers :=
      ((sortDescBy_perm _ _).mem_iff).mp hp1
    rw [hrc] at hp2
    obtain ⟨g, hg, rfl⟩ := List.mem_map.mp hp2
    obtain ⟨g1, g2⟩ := g
    rw [mem_groupBySum_iff] at hg
    refine ⟨hg.2, ?_, rfl⟩
    obtain ⟨r, hr, hkey⟩ := hg.1
    exact ⟨r, hr, by simpa using hkey⟩
  · intro hn
    have hlen1 : (sortDescBy (fun r : (Nat × ℚ) × Option Customer => r.1.2)
        (revenue_by_customer invoices customers)).length
        = (invoices.map Invoice.customerId).dedup.length := by
      rw [(sortDescBy_perm _ _).length_eq, hrc, List.length_map]
      unfold groupBySum
      rw [List.length_map, (List.perm_insertionSort _ _).length_eq]
      have he : (fun i : Invoice => some i.customerId) = some ∘ Invoice.customerId := rfl
      rw [he, List.filterMap_eq_map]
    have htop_eq : top_customers invoices customers n
        = sortDescBy (fun r : (Nat × ℚ) × Option Customer => r.1.2)
            (revenue_by_customer invoices customers) := by
      show (sortDescBy (fun r : (Nat × ℚ) × Option Customer => r.1.2)
          (revenue_by_customer invoices customers)).take n = _
      apply List.take_of_length_le
      rw [hlen1]
      exact hn
    constructor
    · rw [htop_eq, hlen1]
    · intro k
      rw [htop_eq]
      constructor
      · rintro ⟨p, hp, hpk⟩
        have hp2 : p ∈ revenue_by_customer invoices customers :=
          ((sortDescBy_perm _ _).mem_iff).mp hp
        rw [hrc] at hp2
        obtain ⟨g, hg, rfl⟩ := List.mem_map.mp hp2
        obtain ⟨g1, g2⟩ := g
        rw [mem_groupBySum_iff] at hg
        obtain ⟨⟨r, hr, hkey⟩, _⟩ := hg
        subst hpk
        exact List.mem_map.mpr ⟨r, hr, by simpa using hkey⟩
      · intro hk
        obtain ⟨i, hi, hik⟩ := List.mem_map.mp hk
        refine ⟨((k, bucketSum (fun i => some i.customerId) Invoice.total invoices k),
            customers.find? fun c => decide (c.customerId = k)), ?_, rfl⟩
        apply ((sortDescBy_perm _ _).mem_iff).mpr
        rw [hrc]
        refine List.mem_map.mpr
          ⟨(k, bucketSum (fun i => some i.customerId) Invoice.total invoices k), ?_, rfl⟩
        rw [mem_groupBySum_iff]
        exact ⟨⟨i, hi, by rw [hik]⟩, rfl⟩

/-- C5, witness: the amended theorem applied at a concrete two-invoice input. -/
theorem C5_amended_witness :
    ((([⟨1, "Ann", "Lee", some "USA", none⟩] : List Customer).map
        Customer.customerId).Nodup)
      ∧ (top_customers
            [⟨1, 2, ⟨2024, 1, 5⟩, some "USA", 10, none⟩,
              ⟨2, 1, ⟨2024, 1, 20⟩, some "USA", 5, none⟩]
            [⟨1, "Ann", "Lee", some "USA", none⟩] 10).length ≤ 10 :=
  ⟨by decide, (C5_amended _ _ 10 (by decide)).1⟩

/-- C7: `totalRevenue()` is the sum of all invoice totals, it is 0 (not an
error) on the empty collection, and it is invariant under any permutation of
the invoice rows. -/
theorem C7_total_revenue (l l' : List Invoice) (h : l.Perm l') :
    total_revenue [] = 0
      ∧ total_revenue l = (l.map Invoice.total).sum
      ∧ total_revenue l = total_revenue l' := by
  refine ⟨rfl, rfl, ?_⟩
  unfold total_revenue invoiceTotals
  exact (h.map Invoice.total).sum_eq

/-- C7, witness: the theorem applied to a concrete two-invoice permutation. -/
theorem C7_witness :
    ([⟨1, 1, ⟨2024, 1, 5⟩, some "USA", 10, none⟩,
        ⟨2, 2, ⟨2024, 1, 20⟩, some "USA", 5, none⟩] : List Invoice).Perm
        [⟨2, 2, ⟨2024, 1, 20⟩, some "USA", 5, none⟩,
          ⟨1, 1, ⟨2024, 1, 5⟩, some "USA", 10, none⟩]
      ∧ total_revenue
            [⟨1, 1, ⟨2024, 1, 5⟩, some "USA", 10, none⟩,
              ⟨2, 2, ⟨2024, 1, 20⟩, some "USA", 5, none⟩]
          = total_revenue
            [⟨2, 2, ⟨2024, 1, 20⟩, some "USA", 5, none⟩,
              ⟨1, 1, ⟨2024, 1, 5⟩, some "USA", 10, none⟩] :=
  ⟨List.Perm.swap _ _ _, (C7_total_revenue _ _ (List.Perm.swap _ _ _)).2.2⟩

/-- C4: the monthly revenue series is keyed by "YYYY-MM", listed in ascending
string order of the key; every bucket's value is the exact sum of the totals
of the invoices dated in that month; a key appears iff some invoice is dated
in that month (sparse, not zero-filled); and the bucket values sum to
`totalRevenue`. -/
theorem C4_monthly_revenue (invoices : List Invoice) :
    (monthly_revenue invoices).Pairwise (fun p q => strLe p.1 q.1 = true)
      ∧ (∀ p ∈ monthly_revenue invoices,
          p.2 = ((invoices.filter fun i => yearMonthKey i.invoiceDate = p.1).map
              Invoice.total).sum)
      ∧ (∀ k : String, (∃ v, (k, v) ∈ monthly_revenue invoices)
            ↔ ∃ i ∈ invoices, yearMonthKey i.invoiceDate = k)
      ∧ ((monthly_revenue invoices).map Prod.snd).sum = total_revenue invoices := by
  have hmr : monthly_revenue invoices
      = groupBySum (fun a b => strLe a b = true)
          (fun i => some (yearMonthKey i.invoiceDate)) Invoice.total invoices := by
    unfold monthly_revenue analyze_revenue_frame
    rw [groupBySum_map]
    rfl
  refine ⟨?_, ?_, ?_, ?_⟩
  · rw [hmr]
    exact groupBySum_pairwise _ strLe_total' strLe_trans' _ _ _
  · intro p hp
    rw [hmr] at hp
    obtain ⟨p1, p2⟩ := p
    rw [mem_groupBySum_iff] at hp
    rw [hp.2]
    show ((invoices.filter fun r => decide (some (yearMonthKey r.invoiceDate) = some p1)).map
        Invoice.total).sum = _
    exact congrArg (fun l => (List.map Invoice.total l).sum)
      (List.filter_congr fun i _ => by simp)
  · intro k
    constructor
    · rintro ⟨v, hv⟩
      rw [hmr, mem_groupBySum_iff] at hv
      obtain ⟨⟨r, hr, hkey⟩, _⟩ := hv
      exact ⟨r, hr, by simpa using hkey⟩
    · rintro ⟨i, hi, hk⟩
      refine ⟨bucketSum (fun i => some (yearMonthKey i.invoiceDate)) Invoice.total invoices k,
        ?_⟩
      rw [hmr, mem_groupBySum_iff]
      exact ⟨⟨i, hi, by rw [hk]⟩, rfl⟩
  · rw [hmr, groupBySum_snd_sum]
    have h1 : ∀ r ∈ invoices,
        (((fun i : Invoice => some (yearMonthKey i.invoiceDate)) r).isSome : Bool) = true :=
      fun r _ => rfl
    rw [List.filter_congr h1, List.filter_true]
    rfl

lemma artist_sales_name_title {items : List InvoiceLine} {tracks : List Track}
    {albums : List Album} {artists : List Artist}
    {r : ((InvoiceLine × Option Track) × Option Album) × Option Artist}
    (hr : r ∈ artist_sales items tracks albums artists)
    (hname : (artistRowName r).isSome = true) : (artistRowTitle r).isSome = true := by
  obtain ⟨p, oar⟩ := r
  cases oar with
  | none => simp [artistRowName] at hname
  | some ar =>
    have h := mem_leftJoin_some _ _ _ hr
    have he : some ar.artistId = p.2.map Album.artistId := by
      have h3 := h.2.2
      simpa using h3
    cases hal : p.2 with
    | none =>
      rw [hal] at he
      simp at he
    | some al => simp [artistRowTitle, hal]

/-- C8, counterexample: two artists "A" and "B" each have an album titled
"X"; the album aggregation groups by title alone, so the "X" bucket holds
quantity 3 while artist "A"'s bucket holds only 1 — the sum of per-album
quantities over "A"'s album titles does not equal "A"'s total. -/
theorem C8_counterexample :
    ("A", 1) ∈ artist_agg [⟨1, 1, 1⟩, ⟨2, 2, 2⟩]
        [⟨1, some 1, some 1⟩, ⟨2, some 1, some 2⟩]
        [⟨1, "X", 1⟩, ⟨2, "X", 2⟩] [⟨1, some "A"⟩, ⟨2, some "B"⟩]
      ∧ ((artistAlbumTitles
            (artist_sales [⟨1, 1, 1⟩, ⟨2, 2, 2⟩]
              [⟨1, some 1, some 1⟩, ⟨2, some 1, some 2⟩]
              [⟨1, "X", 1⟩, ⟨2, "X", 2⟩] [⟨1, some "A"⟩, ⟨2, some "B"⟩]) "A").map
          (albumBucket
            (artist_sales [⟨1, 1, 1⟩, ⟨2, 2, 2⟩]
              [⟨1, some 1, some 1⟩, ⟨2, some 1, some 2⟩]
              [⟨1, "X", 1⟩, ⟨2, "X", 2⟩] [⟨1, some "A"⟩, ⟨2, some "B"⟩]))).sum = 3
      ∧ (3 : Nat) ≠ 1 := by
  refine ⟨?_, ?_, ?_⟩ <;> decide

/-- C8, amended: the artist and album aggregations are computed from the same
joined line-item set, and their sums are mutually consistent provided each
album title determines a single artist among the joined rows (true in
particular when album titles are unique): then for every entry of the artist
aggregation, the per-album bucket quantities summed over that artist's album
titles equal that artist's total quantity. -/
theorem C8_amended (items : List InvoiceLine) (tracks : List Track) (albums : List Album)
    (artists : List Artist)
    (hta : ∀ r ∈ artist_sales items tracks albums artists,
      ∀ r' ∈ artist_sales items tracks albums artists,
        artistRowTitle r ≠ none → artistRowTitle r = artistRowTitle r' →
          artistRowName r = artistRowName r') :
    ∀ p ∈ artist_agg items tracks albums artists,
      ((artistAlbumTitles (artist_sales items tracks albums artists) p.1).map
          (albumBucket (artist_sales items tracks albums artists))).sum = p.2 := by
  intro p hp
  obtain ⟨a, m⟩ := p
  have hp' : (a, m) ∈ groupBySum (fun a b => strLe a b = true) artistRowName artistRowQty
      (artist_sales items tracks albums artists) :=
    ((sortDescBy_perm Prod.snd (groupBySum (fun a b => strLe a b = true) artistRowName
        artistRowQty (artist_sales items tracks albums artists))).mem_iff).mp hp
  rw [mem_groupBySum_iff] at hp'
  obtain ⟨hex, rfl⟩ := hp'
  show ((((artist_sales items tracks albums artists).filter fun r =>
      artistRowName r = some a).filterMap artistRowTitle).dedup.map fun k =>
        bucketSum artistRowTitle artistRowQty (artist_sales items tracks albums artists)
          k).sum
      = bucketSum artistRowName artistRowQty (artist_sales items tracks albums artists) a
  rw [sum_over_keys artistRowTitle artistRowQty (artist_sales items tracks albums artists) _
    (List.nodup_dedup _)]
  have hcong : ∀ r ∈ artist_sales items tracks albums artists,
      (decide (artistRowTitle r
          ∈ ((((artist_sales items tracks albums artists).filter fun r =>
              artistRowName r = some a).filterMap artistRowTitle).dedup).map some) : Bool)
        = decide (artistRowName r = some a) := by
    intro r hr
    by_cases hmem : artistRowTitle r
        ∈ ((((artist_sales items tracks albums artists).filter fun r =>
            artistRowName r = some a).filterMap artistRowTitle).dedup).map some
    · obtain ⟨t, ht, hrt⟩ := List.mem_map.mp hmem
      obtain ⟨r', hr'f, hr't⟩ := List.mem_filterMap.mp (List.mem_dedup.mp ht)
      have hr'mem := (List.mem_filter.mp hr'f).1
      have hr'name : artistRowName r' = some a := by
        have h2 := (List.mem_filter.mp hr'f).2
        simpa using h2
      have hname : artistRowName r = some a := by
        have heq := hta r' hr'mem r hr (by simp [hr't]) (by rw [hr't]; exact hrt)
        rw [← heq]
        exact hr'name
      simp [hmem, hname]
    · have hname : ¬ artistRowName r = some a := by
        intro hna
        apply hmem
        have hts : (artistRowTitle r).isSome = true :=
          artist_sales_name_title hr (by simp [hna])
        obtain ⟨t, ht⟩ := Option.isSome_iff_exists.mp hts
        refine List.mem_map.mpr ⟨t, ?_, ht.symm⟩
        refine List.mem_dedup.mpr (List.mem_filterMap.mpr ⟨r, ?_, ht⟩)
        exact List.mem_filter.mpr ⟨hr, by simp [hna]⟩
      simp [hmem, hname]
  rw [List.filter_congr hcong]
  rfl

/-- C8, witness: the amended theorem applied at a concrete one-artist input. -/
theorem C8_witness :
    (∀ r ∈ artist_sales [⟨1, 1, 2⟩] [⟨1, some 1, some 1⟩] [⟨1, "X", 1⟩] [⟨1, some "A"⟩],
      ∀ r' ∈ artist_sales [⟨1, 1, 2⟩] [⟨1, some 1, some 1⟩] [⟨1, "X", 1⟩] [⟨1, some "A"⟩],
        artistRowTitle r ≠ none → artistRowTitle r = artistRowTitle r' →
          artistRowName r = artistRowName r')
      ∧ ∀ p ∈ artist_agg [⟨1, 1, 2⟩] [⟨1, some 1, some 1⟩] [⟨1, "X", 1⟩] [⟨1, some "A"⟩],
          ((artistAlbumTitles
              (artist_sales [⟨1, 1, 2⟩] [⟨1, some 1, some 1⟩] [⟨1, "X", 1⟩]
                [⟨1, some "A"⟩]) p.1).map
            (albumBucket
              (artist_sales [⟨1, 1, 2⟩] [⟨1, some 1, some 1⟩] [⟨1, "X", 1⟩]
                [⟨1, some "A"⟩]))).sum = p.2 :=
  ⟨by decide, C8_amended _ _ _ _ (by decide)⟩

/-- C9, counterexample: the invoice frame that `analyze_revenue` returns (and
that `main` passes to the customer and salesperson analyses) is not
field-for-field the loaded frame: a `YearMonth` column has been added to
every row. -/
theorem C9_counterexample :
    analyze_revenue_frame [⟨1, 1, ⟨2024, 1, 5⟩, some "USA", 10, none⟩]
        ≠ [⟨1, 1, ⟨2024, 1, 5⟩, some "USA", 10, none⟩]
      ∧ analyze_revenue_frame [⟨1, 1, ⟨2024, 1, 5⟩, some "USA", 10, none⟩]
          = [⟨1, 1, ⟨2024, 1, 5⟩, some "USA", 10, some "2024-01"⟩] := by
  constructor <;> decide

/-- C9, amended: the revenue stage does augment the invoice frame (it adds
the `YearMonth` column), but the added column is disjoint from every field
the downstream aggregations read, so total revenue, the customer ranking,
the country ranking and the salesperson ranking computed from the augmented
frame coincide with those computed from the rows as loaded; no aggregation
writes to any entity table. -/
theorem C9_amended (invoices : List Invoice) (customers : List Customer)
    (employees : List Employee) (n : Nat) :
    total_revenue (analyze_revenue_frame invoices) = total_revenue invoices
      ∧ top_customers (analyze_revenue_frame invoices) customers n
          = top_customers invoices customers n
      ∧ revenue_by_country (analyze_revenue_frame invoices) = revenue_by_country invoices
      ∧ top_countries (analyze_revenue_frame invoices) n = top_countries invoices n
      ∧ sales_by_rep (analyze_revenue_frame invoices) customers employees
          = sales_by_rep invoices customers employees := by
  have hgc : groupBySum (fun a b => a ≤ b) (fun i => some i.customerId) Invoice.total
      (analyze_revenue_frame invoices)
      = groupBySum (fun a b => a ≤ b) (fun i => some i.customerId) Invoice.total invoices := by
    unfold analyze_revenue_frame
    rw [groupBySum_map]
    rfl
  have hcty : groupBySum (fun a b => strLe a b = true) Invoice.billingCountry Invoice.total
      (analyze_revenue_frame invoices)
      = groupBySum (fun a b => strLe a b = true) Invoice.billingCountry Invoice.total
          invoices := by
    unfold analyze_revenue_frame
    rw [groupBySum_map]
    rfl
  have hsg : sales_groups (analyze_revenue_frame invoices) customers
      = sales_groups invoices customers := by
    unfold sales_groups invoice_with_rep analyze_revenue_frame
    rw [leftJoin_map_left, groupBySum_map]
    rfl
  refine ⟨?_, ?_, ?_, ?_, ?_⟩
  · unfold total_revenue invoiceTotals analyze_revenue_frame
    rw [List.map_map]
    rfl
  · unfold top_customers revenue_by_customer
    rw [hgc]
  · unfold revenue_by_country
    rw [hcty]
  · unfold top_countries revenue_by_country
    rw [hcty]
  · unfold sales_by_rep
    rw [hsg]

/-- C10: for pandas-representable dates the "YYYY-MM" key is a zero-padded
7-character string, and the embedded Python string order on two keys (strict
and non-strict) coincides exactly with the chronological order of the
year-month periods — so sorting the buckets as strings (which C4 shows the
code does) yields a chronologically ordered series. -/
theorem C10_key_order (d1 d2 : Date) (h1 : validDate d1) (h2 : validDate d2) :
    (yearMonthKey d1).length = 7
      ∧ (strLt (yearMonthKey d1) (yearMonthKey d2) = true
          ↔ d1.year < d2.year ∨ (d1.year = d2.year ∧ d1.month < d2.month))
      ∧ (strLe (yearMonthKey d1) (yearMonthKey d2) = true
          ↔ d1.year < d2.year ∨ (d1.year = d2.year ∧ d1.month ≤ d2.month)) := by
  refine ⟨?_, yearMonthKey_lt_iff d1 d2 h1 h2, ?_⟩
  · show (pad4 d1.year ++ '-' :: pad2 d1.month).length = 7
    simp [pad4, pad2]
  · have hlt := yearMonthKey_lt_iff d2 d1 h2 h1
    have hle : strLe (yearMonthKey d1) (yearMonthKey d2) = true
        ↔ ¬ (strLt (yearMonthKey d2) (yearMonthKey d1) = true) := by
      cases h : strLt (yearMonthKey d2) (yearMonthKey d1) <;> simp [strLe, h]
    rw [hle, hlt]
    omega

/-- C10, witness: the theorem applied to the concrete dates 2024-01-05 and
2024-02-01. -/
theorem C10_witness :
    (validDate ⟨2024, 1, 5⟩ ∧ validDate ⟨2024, 2, 1⟩)
      ∧ ((yearMonthKey ⟨2024, 1, 5⟩).length = 7
        ∧ (strLt (yearMonthKey ⟨2024, 1, 5⟩) (yearMonthKey ⟨2024, 2, 1⟩) = true
            ↔ (Date.mk 2024 1 5).year < (Date.mk 2024 2 1).year
              ∨ ((Date.mk 2024 1 5).year = (Date.mk 2024 2 1).year
                ∧ (Date.mk 2024 1 5).month < (Date.mk 2024 2 1).month))
        ∧ (strLe (yearMonthKey ⟨2024, 1, 5⟩) (yearMonthKey ⟨2024, 2, 1⟩) = true
            ↔ (Date.mk 2024 1 5).year < (Date.mk 2024 2 1).year
              ∨ ((Date.mk 2024 1 5).year = (Date.mk 2024 2 1).year
                ∧ (Date.mk 2024 1 5).month ≤ (Date.mk 2024 2 1).month))) :=
  ⟨⟨by decide, by decide⟩, C10_key_order _ _ (by decide) (by decide)⟩

end Chinook
